import Mathlib

/-!
Shallow embedding of the grafana-dashboard-generator frontend
(`src/frontend/app`) and, where the claims concern the backend task
gateway that is not part of the shipped sources, a model of that gateway
taken from the specification.  Every definition in the first half of the
file is a direct translation of a TypeScript function or type of the
repository; the spec-modelled gateway definitions are marked as such in
their doc comments.
-/

/-! ## Data model (`src/frontend/app/types/dashboard.ts`) -/

/-- `ModelProvider` union type: `'openai' | 'anthropic' | 'openai4o'`. -/
inductive ModelProvider where
  | openai
  | anthropic
  | openai4o
deriving DecidableEq, Repr

/-- The external task status union: `'pending' | 'completed' | 'failed'`. -/
inductive Status where
  | pending
  | completed
  | failed
deriving DecidableEq, Repr

/-- JSON values, standing in for the `Record<string, unknown>` dashboard
documents.  The claims treat documents as opaque blobs; numbers are
modelled as integers. -/
inductive Json where
  | null
  | bool (b : Bool)
  | num (n : Int)
  | str (s : String)
  | arr (elems : List Json)
  | obj (fields : List (String × Json))

/-- `ValidationError` interface: `{path, message}`. -/
structure ValidationError where
  path : String
  message : String
deriving DecidableEq, Repr

/-- `DashboardValidationResult` interface: `{is_valid, errors}`. -/
structure DashboardValidationResult where
  is_valid : Bool
  errors : List ValidationError
deriving DecidableEq, Repr

/-- `HumanFeedbackResponse` interface: `{corrected_json, feedback?}`. -/
structure HumanFeedbackResponse where
  corrected_json : Json
  feedback : Option String

/-- The nested `result` object of `TaskResponse`.  Note that all four of
its fields are required properties of the nested object. -/
structure TaskResult where
  dashboard_json : Json
  validation_passed : Bool
  required_human_intervention : Bool
  retry_count : Nat

/-- `TaskResponse` interface: `{task_id, status, result?, error?}`.  The
`result` object as a whole is optional, as is `error`. -/
structure TaskResponse where
  task_id : String
  status : Status
  result : Option TaskResult
  error : Option String

/-- `ModelInfo` interface: `{id, name}`. -/
structure ModelInfo where
  id : String
  name : String
deriving DecidableEq, Repr

/-- `DashboardGenerationRequest` interface as declared in
`src/frontend/app/types/dashboard.ts`:
`{prompt, model_provider, max_retries?, include_rag?}`.
`Option` models an absent optional property. -/
structure DashboardGenerationRequest where
  prompt : String
  model_provider : ModelProvider
  max_retries : Option Int
  include_rag : Option Bool
deriving DecidableEq, Repr

/-- The object literal built inside `dashboardService.generateDashboard`:
`{max_retries: 3, use_rag: true, ...request}`.  The spread copies every
property present on `request`, so the resulting object carries the
declared `include_rag` property (when present) *alongside* the
service-written `use_rag` property. -/
structure CompleteGenerationRequest where
  prompt : String
  model_provider : ModelProvider
  max_retries : Int
  use_rag : Bool
  include_rag : Option Bool
deriving DecidableEq, Repr

/-! ## `dashboardService` (domain service) -/

namespace dashboardService

/-- `generateDashboard`: fills defaults `{max_retries: 3, use_rag: true}`
and spreads the caller's request over them, then forwards the completed
request.  A property present on `request` overrides the default of the
same name; `use_rag` is not a property of `DashboardGenerationRequest`,
so the spread never overrides it. -/
def generateDashboard (request : DashboardGenerationRequest) :
    CompleteGenerationRequest :=
  { prompt := request.prompt
    model_provider := request.model_provider
    max_retries := request.max_retries.getD 3
    use_rag := true
    include_rag := request.include_rag }

end dashboardService

/-! ## `dashboardApi` (API adapter with the two-endpoint fallback)

Each HTTP call is abstracted by the `Except`-valued outcome the endpoint
would deliver; an adapter function takes those outcomes as inputs and
returns the value it would produce together with the ordered list of
endpoint paths it actually requested. -/

namespace dashboardApi

/-- `getTaskStatus`: requests the primary route `/tasks/{taskId}`; on
failure falls back to `/dashboard/tasks/{taskId}`; rethrows the second
error when both fail. -/
def getTaskStatus (taskId : String)
    (primary alt : Except String TaskResponse) :
    Except String TaskResponse × List String :=
  match primary with
  | .ok v => (.ok v, ["/tasks/" ++ taskId])
  | .error _ =>
    match alt with
    | .ok v => (.ok v, ["/tasks/" ++ taskId, "/dashboard/tasks/" ++ taskId])
    | .error e2 =>
      (.error e2, ["/tasks/" ++ taskId, "/dashboard/tasks/" ++ taskId])

/-- `submitHumanFeedback`: posts to the primary route
`/tasks/{taskId}/feedback`; on failure falls back to
`/dashboard/tasks/{taskId}/feedback`; rethrows the second error when
both fail. -/
def submitHumanFeedback (taskId : String)
    (primary alt : Except String TaskResponse) :
    Except String TaskResponse × List String :=
  match primary with
  | .ok v => (.ok v, ["/tasks/" ++ taskId ++ "/feedback"])
  | .error _ =>
    match alt with
    | .ok v =>
      (.ok v, ["/tasks/" ++ taskId ++ "/feedback",
               "/dashboard/tasks/" ++ taskId ++ "/feedback"])
    | .error e2 =>
      (.error e2, ["/tasks/" ++ taskId ++ "/feedback",
                   "/dashboard/tasks/" ++ taskId ++ "/feedback"])

/-- `getAvailableModels`: tries `/models`, then `/dashboard/models`, and
returns the empty array instead of throwing when both requests fail
(the hook is left to handle the fallback). -/
def getAvailableModels
    (primary alt : Except String (List ModelInfo)) :
    Except String (List ModelInfo) :=
  match primary with
  | .ok ms => .ok ms
  | .error _ =>
    match alt with
    | .ok ms => .ok ms
    | .error _ => .ok []

end dashboardApi

/-! ## `useDashboardModels` hook -/

/-- The four hard-coded fallback models of the hook's `catch` branch. -/
def defaultModels : List ModelInfo :=
  [{ id := "gpt-4o", name := "GPT-4 Optimized (Default)" },
   { id := "openai", name := "OpenAI GPT-4 Turbo" },
   { id := "o3-mini", name := "OpenAI o3-mini" },
   { id := "anthropic", name := "Anthropic Claude 3 Opus" }]

/-- The state the hook settles into after its effect ran. -/
structure ModelsHookState where
  models : List ModelInfo
  isLoading : Bool
  error : Option String
deriving DecidableEq, Repr

/-- `fetchModels` of `useDashboardModels`: stores the service result on
success; on a thrown error records the error message and falls back to
`defaultModels`; always clears `isLoading` in `finally`. -/
def fetchModels (serviceResult : Except String (List ModelInfo)) :
    ModelsHookState :=
  match serviceResult with
  | .ok ms => { models := ms, isLoading := false, error := none }
  | .error _ =>
    { models := defaultModels, isLoading := false,
      error := some "Failed to load available models" }

/-! ## `DashboardResult` component -/

/-- The render condition of the human-feedback form in `DashboardResult`
(both shipped versions agree):
`taskStatus.status === 'completed' && taskStatus.result?.required_human_intervention`. -/
def showsFeedbackForm (tr : TaskResponse) : Bool :=
  (tr.status == Status.completed) &&
    ((tr.result.map TaskResult.required_human_intervention).getD false)

/-- The render condition of the final dashboard-JSON display:
`status === 'completed' && result?.dashboard_json && !result?.required_human_intervention`. -/
def showsDashboardJson (tr : TaskResponse) : Bool :=
  (tr.status == Status.completed) && tr.result.isSome &&
    !((tr.result.map TaskResult.required_human_intervention).getD false)

/-- The component state touched by `handleFeedbackSubmit`. -/
structure FeedbackUi where
  taskStatus : Option TaskResponse
  error : Option String
  isSubmittingFeedback : Bool

/-- Whether (and with which payload) `dashboardService.submitHumanFeedback`
was invoked during a run of `handleFeedbackSubmit`. -/
inductive SubmitCall where
  | notInvoked
  | invoked (payload : HumanFeedbackResponse)

/-- `handleFeedbackSubmit`.  `parse` stands for `JSON.parse` (`none` is a
thrown `SyntaxError`); `submitResult` stands for the awaited outcome of
`dashboardService.submitHumanFeedback` on the payload the handler
builds.  Returns the component state after the run together with the
record of whether the service call was made.  The guard
`if (!taskId || !feedbackJson) return;` is the empty-string falsiness
test; the `finally` block clears `isSubmittingFeedback`. -/
def handleFeedbackSubmit (parse : String → Option Json)
    (submitResult : HumanFeedbackResponse → Except Unit TaskResponse)
    (taskId feedbackJson feedbackMessage : String)
    (ui : FeedbackUi) : FeedbackUi × SubmitCall :=
  if taskId = "" ∨ feedbackJson = "" then (ui, .notInvoked)
  else
    let ui1 : FeedbackUi := { ui with isSubmittingFeedback := true, error := none }
    match parse feedbackJson with
    | none =>
      ({ ui1 with
          error := some "Invalid JSON format. Please correct the JSON before submitting.",
          isSubmittingFeedback := false }, .notInvoked)
    | some jsonData =>
      let feedback : HumanFeedbackResponse :=
        { corrected_json := jsonData, feedback := some feedbackMessage }
      match submitResult feedback with
      | .ok response =>
        ({ ui1 with taskStatus := some response,
                    isSubmittingFeedback := false }, .invoked feedback)
      | .error _ =>
        ({ ui1 with
            error := some "Failed to submit feedback. Please try again.",
            isSubmittingFeedback := false }, .invoked feedback)

/-! ## `pollTaskStatus`

`dashboardService.pollTaskStatus` runs `checkStatus`, which fetches the
task's status, hands it to `onUpdate`, and re-schedules itself via
`setTimeout` exactly when the fetched status is `'pending'`.  The
successive fetch outcomes are abstracted as a stream `f : Nat → TaskResponse`
(`f i` is the response of the `i`-th `getTaskStatus` request); the model
returns the list of fetch indices issued paired with the list of
responses passed to `onUpdate`, in order.  `fuel` bounds the unfolding
of the (potentially endless) `setTimeout` chain. -/
def pollTaskStatus (f : Nat → TaskResponse) :
    Nat → Nat → List Nat × List TaskResponse
  | 0, _ => ([], [])
  | fuel + 1, i =>
    let r := f i
    if r.status == Status.pending then
      let rest := pollTaskStatus f fuel (i + 1)
      (i :: rest.1, r :: rest.2)
    else ([i], [r])

/-! ## Spec-modelled backend gateway

The repository ships only the frontend; the backend TaskStore,
PipelineEngine and TaskGateway named by the specification are not under
`src/`.  The definitions below model that missing part from the
specification's own words (sections 3, 4.2, 4.3 and 7). -/

/-- Modelled from the spec: the shape of a creation request as validated
by `submit` — "non-empty prompt, valid provider selector,
`maxRetries ≥ 0`", plus the augmentation toggle of the configuration
surface.  The backend TaskGateway is missing from `src/`. -/
structure SubmitRequest where
  prompt : String
  provider : String
  maxRetries : Int
  useAugmentation : Bool
deriving DecidableEq, Repr

/-- Modelled from the spec: the provider selectors recognized by the
system, taken from the `ModelProvider` union of the shipped types. -/
def validProviders : List String := ["openai", "anthropic", "openai4o"]

/-- Modelled from the spec: `submit` "validates `request` shape
(non-empty prompt, valid provider selector, `maxRetries ≥ 0`)". -/
def validRequestShape (r : SubmitRequest) : Bool :=
  (r.prompt != "") && validProviders.contains r.provider &&
    decide (0 ≤ r.maxRetries)

/-- Modelled from the spec: the durable Task record of the data model —
status among `Pending | Completed | Failed`, the internal
`AwaitingHuman` sub-state of `Pending` exposed as the
`requiresHumanIntervention` flag, the immutable request, the current
document, the last validation outcome, the retry count and the terminal
error.  The backend TaskStore is missing from `src/`. -/
structure SpecTask where
  id : String
  status : Status
  awaitingHuman : Bool
  request : SubmitRequest
  document : Option Json
  validation : Option DashboardValidationResult
  retryCount : Nat
  error : Option String

/-- Modelled from the spec: a task is in the `AwaitingHuman` sub-state
when its external status is `Pending` and the human-intervention flag is
raised. -/
def SpecTask.isAwaitingHuman (t : SpecTask) : Bool :=
  (t.status == Status.pending) && t.awaitingHuman

/-- Modelled from the spec: the state of a freshly created task —
`status = Pending`, `retryCount = 0`, nothing generated yet. -/
def initialTask (id : String) (r : SubmitRequest) : SpecTask :=
  { id := id, status := .pending, awaitingHuman := false, request := r,
    document := none, validation := none, retryCount := 0, error := none }

/-- Modelled from the spec: `TaskStore.get` — lookup of a task by its
identifier. -/
def storeGet (store : List SpecTask) (id : String) : Option SpecTask :=
  store.find? (fun t => t.id == id)

/-- Modelled from the spec: `TaskStore.update` — replaces the task with
the given identifier. -/
def storeUpdate (store : List SpecTask) (id : String) (t' : SpecTask) :
    List SpecTask :=
  store.map (fun t => if t.id == id then t' else t)

/-- Modelled from the spec: a fresh, never-reused task identifier. -/
def freshId (store : List SpecTask) : String :=
  "task-" ++ toString store.length

/-- Outcome of `gatewaySubmit`. -/
inductive SubmitOutcome where
  | accepted (taskId : String)
  | badRequest
deriving DecidableEq, Repr

/-- Modelled from the spec: `TaskGateway.submit` — validates the request
shape, creates the Task, and returns immediately with the identifier;
the created task is still in its initial `Pending` state because the
PipelineEngine is started asynchronously, after the return. -/
def gatewaySubmit (store : List SpecTask) (r : SubmitRequest) :
    SubmitOutcome × List SpecTask :=
  if validRequestShape r then
    (.accepted (freshId store), store ++ [initialTask (freshId store) r])
  else (.badRequest, store)

/-- Outcome of `gatewaySubmitFeedback`: the accepted case carries the
task after the resume transition; `notFound` and `invalidState` are the
two distinct gateway errors of the spec's error taxonomy. -/
inductive FeedbackOutcome where
  | accepted (task : SpecTask)
  | notFound
  | invalidState

/-- Modelled from the spec: the `Resuming` transition — the submitted
document "is accepted as authoritative and is NOT re-validated";
`status = Completed`, `requiresHumanIntervention = false`; every other
field (in particular the stored `validation`) is left untouched, and no
validator is consulted. -/
def resumeWithFeedback (t : SpecTask) (doc : Json) : SpecTask :=
  { t with document := some doc, status := .completed,
           awaitingHuman := false }

/-- Modelled from the spec: `TaskGateway.submitFeedback` — "only legal
when the task is in `AwaitingHuman`; any other state yields
`InvalidState`" and "causes no mutation".  The note accompanying the
document is accepted but the spec assigns it no stored effect. -/
def gatewaySubmitFeedback (store : List SpecTask) (id : String)
    (doc : Json) (_note : Option String) :
    FeedbackOutcome × List SpecTask :=
  match storeGet store id with
  | none => (.notFound, store)
  | some t =>
    if t.isAwaitingHuman then
      let t' := resumeWithFeedback t doc
      (.accepted t', storeUpdate store id t')
    else (.invalidState, store)

/-- Modelled from the spec: `TaskGateway.status` — a read-only snapshot
that does not mutate the store; returned alongside the store to make
"read-only" expressible. -/
def readStatus (store : List SpecTask) (id : String) :
    Option SpecTask × List SpecTask :=
  (storeGet store id, store)

/-! ## Task-view field accessors

Reading a gateway-facing field out of a `TaskResponse`, the way the
frontend does (`taskStatus.result?.retry_count` and friends): the value
is present only when the optional `result` object is. -/

/-- `taskStatus.result?.retry_count`. -/
def TaskResponse.retryCountField (tr : TaskResponse) : Option Nat :=
  tr.result.map TaskResult.retry_count

/-- `taskStatus.result?.dashboard_json`. -/
def TaskResponse.documentField (tr : TaskResponse) : Option Json :=
  tr.result.map TaskResult.dashboard_json

/-- `taskStatus.result?.validation_passed`. -/
def TaskResponse.validationPassedField (tr : TaskResponse) : Option Bool :=
  tr.result.map TaskResult.validation_passed

/-- `taskStatus.result?.required_human_intervention`. -/
def TaskResponse.requiresHumanField (tr : TaskResponse) : Option Bool :=
  tr.result.map TaskResult.required_human_intervention

/-- `taskStatus.error`. -/
def TaskResponse.errorMessageField (tr : TaskResponse) : Option String :=
  tr.error

/-! ## Concrete sample data for exercising the model -/

/-- A concrete fetch stream: the first two status fetches return a
pending response, the third a completed one. -/
def sampleFetchStream : Nat → TaskResponse := fun i =>
  if i < 2 then
    { task_id := "t", status := .pending, result := none, error := none }
  else
    { task_id := "t", status := .completed,
      result := some { dashboard_json := .obj [],
                       validation_passed := true,
                       required_human_intervention := false,
                       retry_count := 2 },
      error := none }

/-- A concrete task suspended in the `AwaitingHuman` sub-state after
exhausting its retry budget. -/
def sampleAwaitingTask : SpecTask :=
  { id := "t1", status := .pending, awaitingHuman := true,
    request := { prompt := "p", provider := "openai",
                 maxRetries := 3, useAugmentation := true },
    document := some (.obj []),
    validation := some { is_valid := false,
                         errors := [{ path := "$", message := "bad" }] },
    retryCount := 3, error := none }

/-- A concrete terminal task (already completed). -/
def sampleCompletedTask : SpecTask :=
  { id := "t2", status := .completed, awaitingHuman := false,
    request := { prompt := "p", provider := "openai",
                 maxRetries := 3, useAugmentation := true },
    document := some (.obj []),
    validation := some { is_valid := true, errors := [] },
    retryCount := 1, error := none }

/-! ## Claims -/

/-- C1 — counterexample.  The claim states that a task awaiting the
human's corrected document is exposed with status `Pending` and never
under the terminal status `Completed`.  On the code this is false: the
`DashboardResult` component offers the human-correction flow (the
feedback form) exactly for a response whose status is `'completed'`
with `required_human_intervention` set, and a `'pending'` response with
the same flag is never offered the form. -/
theorem C1_counterexample_completed_awaits_human :
    showsFeedbackForm
      { task_id := "t1", status := .completed,
        result := some { dashboard_json := .obj [],
                         validation_passed := false,
                         required_human_intervention := true,
                         retry_count := 3 },
        error := none } = true ∧
    Status.completed ≠ Status.pending ∧
    showsFeedbackForm
      { task_id := "t1", status := .pending,
        result := some { dashboard_json := .obj [],
                         validation_passed := false,
                         required_human_intervention := true,
                         retry_count := 3 },
        error := none } = false :=
  ⟨rfl, by decide, rfl⟩

/-- C1 — amended.  A task awaiting human intervention is exposed under
status `Completed` with `required_human_intervention = true`: the
frontend shows the human-feedback form exactly when the response status
is the terminal `'completed'` and the nested intervention flag is set,
so the awaiting-human sub-state is surfaced under `Completed`, not
`Pending`. -/
theorem C1_feedback_form_iff_completed_flagged (tr : TaskResponse) :
    showsFeedbackForm tr = true ↔
      (tr.status = Status.completed ∧
       ∃ r, tr.result = some r ∧ r.required_human_intervention = true) := by
  cases tr with
  | mk tid st res err =>
    cases res with
    | none => simp [showsFeedbackForm]
    | some r =>
      simp [showsFeedbackForm, Bool.and_eq_true, beq_iff_eq]

/-- C2 — the code at the failing input.  The request type's declared
augmentation field is `include_rag`; the service's default is written
under the distinct key `use_rag`, which the caller's `include_rag =
false` cannot override, so the forwarded request still carries
`use_rag = true` and augmentation is not disabled. -/
theorem C2_include_rag_false_leaves_use_rag_true :
    dashboardService.generateDashboard
      { prompt := "cpu dashboard", model_provider := .openai,
        max_retries := none, include_rag := some false } =
      { prompt := "cpu dashboard", model_provider := .openai,
        max_retries := 3, use_rag := true, include_rag := some false } :=
  rfl

/-- C5 — counterexample.  The claim states that every gateway-facing
task view contains a non-optional `retryCount`, so a still-pending view
already reports its retry count.  On the code this is false:
`retry_count` sits inside the optional `result` object, and a pending
response without a `result` carries no retry count at all. -/
theorem C5_counterexample_pending_view_lacks_retry_count :
    TaskResponse.retryCountField
      { task_id := "t2", status := .pending,
        result := none, error := none } = none :=
  rfl

/-- C5 — amended.  `retryCount` is optional in the gateway-facing task
view: it lives inside the optional `result` object together with the
document, the validation flag and the intervention flag, and all four
are present exactly when `result` is; `errorMessage` is a separate
optional field.  A still-pending view with no `result` therefore
reports no retry count. -/
theorem C5_result_fields_present_together (tr : TaskResponse) :
    (tr.retryCountField.isSome ↔ tr.result.isSome) ∧
    (tr.documentField.isSome ↔ tr.result.isSome) ∧
    (tr.validationPassedField.isSome ↔ tr.result.isSome) ∧
    (tr.requiresHumanField.isSome ↔ tr.result.isSome) := by
  cases h : tr.result <;>
    simp [TaskResponse.retryCountField, TaskResponse.documentField,
          TaskResponse.validationPassedField, TaskResponse.requiresHumanField, h]

/-- C9 — `dashboardApi.getAvailableModels` never propagates an error: it
returns the models of the first endpoint (`/models`, then
`/dashboard/models`) that succeeds and the empty list when both fail,
so the hook's four-model default branch is reached only when the
service itself throws, and a double endpoint failure leaves the hook
with the empty model list, not the defaults. -/
theorem C9_getAvailableModels_never_throws :
    (∀ p a, ∃ ms, dashboardApi.getAvailableModels p a = .ok ms) ∧
    (∀ ms a, dashboardApi.getAvailableModels (.ok ms) a = .ok ms) ∧
    (∀ e ms, dashboardApi.getAvailableModels (.error e) (.ok ms) = .ok ms) ∧
    (∀ e e', dashboardApi.getAvailableModels (.error e) (.error e') = .ok []) ∧
    (∀ e e',
      fetchModels (dashboardApi.getAvailableModels (.error e) (.error e')) =
        { models := [], isLoading := false, error := none }) ∧
    (∀ e, fetchModels (.error e) =
        { models := defaultModels, isLoading := false,
          error := some "Failed to load available models" }) := by
  refine ⟨?_, ?_, ?_, ?_, ?_, ?_⟩
  · intro p a
    cases p with
    | ok ms => exact ⟨ms, rfl⟩
    | error e =>
      cases a with
      | ok ms => exact ⟨ms, rfl⟩
      | error e' => exact ⟨[], rfl⟩
  · intro ms a; rfl
  · intro e ms; rfl
  · intro e e'; rfl
  · intro e e'; rfl
  · intro e; rfl

/-- Helper: the fallback route differs from the primary route for every
task identifier (the route prefixes have different lengths). -/
theorem alt_route_ne_primary (id : String) :
    "/dashboard/tasks/" ++ id ≠ "/tasks/" ++ id := by
  intro h
  have hlen := congrArg String.length h
  simp [String.length_append] at hlen
  revert hlen
  decide

/-- C10 — `dashboardApi.getTaskStatus` requests the primary
`/tasks/{taskId}` route first and returns its response whenever it
succeeds without touching the alternative `/dashboard/tasks/{taskId}`
route; only a primary failure reaches the alternative, and the call
throws exactly when both routes fail.  `submitHumanFeedback` follows
the same order on the `/feedback` routes. -/
theorem C10_two_endpoint_fallback_order :
    (∀ id v a, dashboardApi.getTaskStatus id (.ok v) a =
        (.ok v, ["/tasks/" ++ id])) ∧
    (∀ id v a,
      ("/dashboard/tasks/" ++ id) ∉ (dashboardApi.getTaskStatus id (.ok v) a).2) ∧
    (∀ id e v, dashboardApi.getTaskStatus id (.error e) (.ok v) =
        (.ok v, ["/tasks/" ++ id, "/dashboard/tasks/" ++ id])) ∧
    (∀ id e e2, dashboardApi.getTaskStatus id (.error e) (.error e2) =
        (.error e2, ["/tasks/" ++ id, "/dashboard/tasks/" ++ id])) ∧
    (∀ id p a, (∃ e, (dashboardApi.getTaskStatus id p a).1 = .error e) ↔
        ((∃ e, p = .error e) ∧ (∃ e, a = .error e))) ∧
    (∀ id v a, dashboardApi.submitHumanFeedback id (.ok v) a =
        (.ok v, ["/tasks/" ++ id ++ "/feedback"])) ∧
    (∀ id e v, dashboardApi.submitHumanFeedback id (.error e) (.ok v) =
        (.ok v, ["/tasks/" ++ id ++ "/feedback",
                 "/dashboard/tasks/" ++ id ++ "/feedback"])) ∧
    (∀ id e e2, dashboardApi.submitHumanFeedback id (.error e) (.error e2) =
        (.error e2, ["/tasks/" ++ id ++ "/feedback",
                     "/dashboard/tasks/" ++ id ++ "/feedback"])) := by
  refine ⟨?_, ?_, ?_, ?_, ?_, ?_, ?_, ?_⟩
  · intro id v a; rfl
  · intro id v a
    simp [dashboardApi.getTaskStatus]
    exact alt_route_ne_primary id
  · intro id e v; rfl
  · intro id e e2; rfl
  · intro id p a
    cases p with
    | ok v => simp [dashboardApi.getTaskStatus]
    | error e =>
      cases a with
      | ok v => simp [dashboardApi.getTaskStatus]
      | error e2 => simp [dashboardApi.getTaskStatus]
  · intro id v a; rfl
  · intro id e v; rfl
  · intro id e e2; rfl

/-- C3 — for a feedback submission made while the task awaits human
intervention, the handler submits exactly the parsed document of the
edited JSON text (only syntactic well-formedness is checked on the
client), and the gateway accepts it verbatim as the final document with
no re-validation: the task transitions to `Completed` with the
intervention flag cleared and the stored validation outcome untouched,
for an arbitrary (semantically unconstrained) document. -/
theorem C3_feedback_accepted_verbatim
    (parse : String → Option Json)
    (submitResult : HumanFeedbackResponse → Except Unit TaskResponse)
    (taskId txt msg : String) (d : Json) (ui : FeedbackUi)
    (store : List SpecTask) (t : SpecTask)
    (hid : taskId ≠ "") (htxt : txt ≠ "")
    (hparse : parse txt = some d)
    (hget : storeGet store taskId = some t)
    (hawait : t.isAwaitingHuman = true) :
    (handleFeedbackSubmit parse submitResult taskId txt msg ui).2 =
      .invoked { corrected_json := d, feedback := some msg } ∧
    gatewaySubmitFeedback store taskId d (some msg) =
      (.accepted (resumeWithFeedback t d),
       storeUpdate store taskId (resumeWithFeedback t d)) ∧
    (resumeWithFeedback t d).document = some d ∧
    (resumeWithFeedback t d).status = Status.completed ∧
    (resumeWithFeedback t d).awaitingHuman = false ∧
    (resumeWithFeedback t d).validation = t.validation := by
  refine ⟨?_, ?_, rfl, rfl, rfl, rfl⟩
  · unfold handleFeedbackSubmit
    rw [if_neg (by simp [hid, htxt])]
    rw [hparse]
    cases hres : submitResult { corrected_json := d, feedback := some msg } <;>
      simp [hres]
  · unfold gatewaySubmitFeedback
    rw [hget]
    simp [hawait]

theorem C3_feedback_accepted_verbatim_witness :
    (handleFeedbackSubmit
        (fun s => if s = "{}" then some (Json.obj []) else none)
        (fun _ => Except.error ()) "t1" "{}" "ok"
        { taskStatus := none, error := none, isSubmittingFeedback := false }).2 =
      .invoked { corrected_json := Json.obj [], feedback := some "ok" } ∧
    gatewaySubmitFeedback [sampleAwaitingTask] "t1" (Json.obj []) (some "ok") =
      (.accepted (resumeWithFeedback sampleAwaitingTask (Json.obj [])),
       storeUpdate [sampleAwaitingTask] "t1"
         (resumeWithFeedback sampleAwaitingTask (Json.obj []))) ∧
    (resumeWithFeedback sampleAwaitingTask (Json.obj [])).document =
      some (Json.obj []) ∧
    (resumeWithFeedback sampleAwaitingTask (Json.obj [])).status =
      Status.completed ∧
    (resumeWithFeedback sampleAwaitingTask (Json.obj [])).awaitingHuman = false ∧
    (resumeWithFeedback sampleAwaitingTask (Json.obj [])).validation =
      sampleAwaitingTask.validation :=
  C3_feedback_accepted_verbatim
    (fun s => if s = "{}" then some (Json.obj []) else none)
    (fun _ => Except.error ()) "t1" "{}" "ok" (Json.obj [])
    { taskStatus := none, error := none, isSubmittingFeedback := false }
    [sampleAwaitingTask] sampleAwaitingTask
    (by decide) (by decide) rfl rfl rfl

/-- C4 — a feedback submission against a task that is not in
`AwaitingHuman` (a terminal task included) yields the distinct
`InvalidState` protocol error as the synchronous outcome of that call
and causes no mutation: the store is returned identical. -/
theorem C4_feedback_invalid_state_no_mutation
    (store : List SpecTask) (id : String) (doc : Json) (note : Option String)
    (t : SpecTask)
    (hget : storeGet store id = some t)
    (hnot : t.isAwaitingHuman = false) :
    gatewaySubmitFeedback store id doc note = (.invalidState, store) ∧
    (∀ t', FeedbackOutcome.invalidState ≠ FeedbackOutcome.accepted t') ∧
    FeedbackOutcome.invalidState ≠ FeedbackOutcome.notFound := by
  refine ⟨?_, ?_, ?_⟩
  · unfold gatewaySubmitFeedback
    rw [hget]
    simp [hnot]
  · intro t' h
    exact FeedbackOutcome.noConfusion h
  · intro h
    exact FeedbackOutcome.noConfusion h

theorem C4_feedback_invalid_state_no_mutation_witness :
    gatewaySubmitFeedback [sampleCompletedTask] "t2" (Json.obj [])
        (some "late edit") = (.invalidState, [sampleCompletedTask]) ∧
    (∀ t', FeedbackOutcome.invalidState ≠ FeedbackOutcome.accepted t') ∧
    FeedbackOutcome.invalidState ≠ FeedbackOutcome.notFound :=
  C4_feedback_invalid_state_no_mutation [sampleCompletedTask] "t2"
    (Json.obj []) (some "late edit") sampleCompletedTask rfl rfl

/-- C6 — `submit` validates the request shape: an empty prompt, an
unrecognized provider selector or a negative `maxRetries` each make the
shape invalid, an invalid request is rejected synchronously with the
store unchanged (no task created), and a well-shaped request returns
the fresh task identifier immediately — the created task is still in
its initial `Pending` state with `retryCount = 0`, since the pipeline
has not run yet. -/
theorem C6_submit_validates_and_returns_immediately :
    (∀ r : SubmitRequest, r.prompt = "" → validRequestShape r = false) ∧
    (∀ r : SubmitRequest, validProviders.contains r.provider = false →
      validRequestShape r = false) ∧
    (∀ r : SubmitRequest, r.maxRetries < 0 → validRequestShape r = false) ∧
    (∀ store r, validRequestShape r = false →
      gatewaySubmit store r = (.badRequest, store)) ∧
    (∀ store r, validRequestShape r = true →
      gatewaySubmit store r =
        (.accepted (freshId store), store ++ [initialTask (freshId store) r]) ∧
      (initialTask (freshId store) r).status = Status.pending ∧
      (initialTask (freshId store) r).awaitingHuman = false ∧
      (initialTask (freshId store) r).retryCount = 0) := by
  refine ⟨?_, ?_, ?_, ?_, ?_⟩
  · intro r h
    simp [validRequestShape, h]
  · intro r h
    unfold validRequestShape
    rw [h]
    simp
  · intro r h
    have hneg : ¬ (0 ≤ r.maxRetries) := by omega
    simp [validRequestShape, hneg]
  · intro store r h
    simp [gatewaySubmit, h]
  · intro store r h
    exact ⟨by simp [gatewaySubmit, h], rfl, rfl, rfl⟩

theorem C6_submit_validates_witness :
    gatewaySubmit []
      { prompt := "", provider := "openai", maxRetries := 3,
        useAugmentation := true } = (.badRequest, []) ∧
    gatewaySubmit []
      { prompt := "cpu dashboard", provider := "openai", maxRetries := 3,
        useAugmentation := true } =
      (.accepted (freshId []),
       [] ++ [initialTask (freshId [])
                { prompt := "cpu dashboard", provider := "openai",
                  maxRetries := 3, useAugmentation := true }]) :=
  ⟨C6_submit_validates_and_returns_immediately.2.2.2.1 []
      { prompt := "", provider := "openai", maxRetries := 3,
        useAugmentation := true } (by decide),
   (C6_submit_validates_and_returns_immediately.2.2.2.2 []
      { prompt := "cpu dashboard", provider := "openai", maxRetries := 3,
        useAugmentation := true } (by decide)).1⟩

/-- C8 — when the feedback editor's text does not parse as JSON, the
handler performs no service call at all, leaves the displayed task
state unchanged, and reports exactly
"Invalid JSON format. Please correct the JSON before submitting.";
with an empty task id or empty feedback text it returns with no effect
whatsoever. -/
theorem C8_invalid_json_no_submit
    (parse : String → Option Json)
    (submitResult : HumanFeedbackResponse → Except Unit TaskResponse)
    (taskId txt msg : String) (ui : FeedbackUi) :
    (parse txt = none → taskId ≠ "" → txt ≠ "" →
      handleFeedbackSubmit parse submitResult taskId txt msg ui =
        ({ taskStatus := ui.taskStatus,
           error := some "Invalid JSON format. Please correct the JSON before submitting.",
           isSubmittingFeedback := false }, .notInvoked)) ∧
    (taskId = "" ∨ txt = "" →
      handleFeedbackSubmit parse submitResult taskId txt msg ui =
        (ui, .notInvoked)) := by
  constructor
  · intro hp hid htxt
    unfold handleFeedbackSubmit
    rw [if_neg (by simp [hid, htxt])]
    rw [hp]
  · intro h
    unfold handleFeedbackSubmit
    rw [if_pos h]

theorem C8_invalid_json_no_submit_witness :
    handleFeedbackSubmit (fun _ => none) (fun _ => Except.error ())
        "t1" "not json" ""
        { taskStatus := none, error := none, isSubmittingFeedback := false } =
      ({ taskStatus := none,
         error := some "Invalid JSON format. Please correct the JSON before submitting.",
         isSubmittingFeedback := false }, .notInvoked) ∧
    handleFeedbackSubmit (fun _ => none) (fun _ => Except.error ())
        "" "not json" ""
        { taskStatus := none, error := none, isSubmittingFeedback := false } =
      ({ taskStatus := none, error := none, isSubmittingFeedback := false },
       .notInvoked) :=
  ⟨(C8_invalid_json_no_submit (fun _ => none) (fun _ => Except.error ())
      "t1" "not json" ""
      { taskStatus := none, error := none, isSubmittingFeedback := false }).1
      rfl (by decide) (by decide),
   (C8_invalid_json_no_submit (fun _ => none) (fun _ => Except.error ())
      "" "not json" ""
      { taskStatus := none, error := none, isSubmittingFeedback := false }).2
      (Or.inl rfl)⟩

/-- Helper: the responses handed to `onUpdate` are exactly the fetched
responses, in order — one callback invocation per issued fetch. -/
theorem pollTaskStatus_snd_eq_map (f : Nat → TaskResponse) :
    ∀ fuel i, (pollTaskStatus f fuel i).2 = ((pollTaskStatus f fuel i).1).map f := by
  intro fuel
  induction fuel with
  | zero => intro i; rfl
  | succ fuel ih =>
    intro i
    by_cases hc : ((f i).status == Status.pending) = true
    · simp [pollTaskStatus, hc, ih (i + 1)]
    · rw [Bool.not_eq_true] at hc
      simp [pollTaskStatus, hc]

/-- Helper: when the first non-pending fetch is the `k`-th one (counted
from the start index `i`) and the fuel suffices, the issued fetch
indices are exactly `i, i+1, …, i+k`. -/
theorem pollTaskStatus_fst_range (f : Nat → TaskResponse) :
    ∀ (k fuel i : Nat),
      (∀ j, j < k → (f (i + j)).status = Status.pending) →
      (f (i + k)).status ≠ Status.pending → k < fuel →
      (pollTaskStatus f fuel i).1 = (List.range (k + 1)).map (fun j => i + j) := by
  intro k
  induction k with
  | zero =>
    intro fuel i _ hterm hfuel
    match fuel, hfuel with
    | fuel' + 1, _ =>
      have hc : ((f i).status == Status.pending) = false := by
        simp only [beq_eq_false_iff_ne, ne_eq]
        simpa using hterm
      simp [pollTaskStatus, hc, List.range_succ]
  | succ k ih =>
    intro fuel i hpend hterm hfuel
    match fuel, hfuel with
    | fuel' + 1, hfuel =>
      have hc : ((f i).status == Status.pending) = true := by
        have h0 := hpend 0 (Nat.succ_pos k)
        simp only [Nat.add_zero] at h0
        simp [h0]
      have hpend' : ∀ j, j < k → (f (i + 1 + j)).status = Status.pending := by
        intro j hj
        have := hpend (j + 1) (by omega)
        have harith : i + (j + 1) = i + 1 + j := by omega
        rwa [harith] at this
      have hterm' : (f (i + 1 + k)).status ≠ Status.pending := by
        have harith : i + (k + 1) = i + 1 + k := by omega
        rwa [harith] at hterm
      have ih' := ih fuel' (i + 1) hpend' hterm' (by omega)
      have hstep : (pollTaskStatus f (fuel' + 1) i).1 =
          i :: (pollTaskStatus f fuel' (i + 1)).1 := by
        simp [pollTaskStatus, hc]
      rw [hstep, ih']
      have hcomp : ((fun j => i + j) ∘ Nat.succ) = fun j => i + 1 + j := by
        funext j
        simp [Function.comp]
        omega
      conv_rhs => rw [List.range_succ_eq_map, List.map_cons, List.map_map, hcomp]
      simp

/-- C7 — `pollTaskStatus` hands each fetched status to the callback
exactly once per fetch and re-schedules a fetch exactly while the
fetched status is `'pending'`: when the fetches `0, …, k-1` are pending
and fetch `k` is terminal (and the fuel bound is not hit first), the
issued fetches are exactly `0, …, k` — no request is issued after the
terminal one — and the callback sequence is those fetches' responses in
order.  Status reads themselves do not mutate the store, so repeated
reads with no intervening mutation return identical results. -/
theorem C7_poll_until_terminal (f : Nat → TaskResponse) (k fuel : Nat)
    (hpend : ∀ j, j < k → (f j).status = Status.pending)
    (hterm : (f k).status ≠ Status.pending)
    (hfuel : k < fuel) :
    (pollTaskStatus f fuel 0).2 = ((pollTaskStatus f fuel 0).1).map f ∧
    pollTaskStatus f fuel 0 = (List.range (k + 1), (List.range (k + 1)).map f) ∧
    (∀ m, k < m → m ∉ (pollTaskStatus f fuel 0).1) ∧
    (∀ store id, (readStatus store id).2 = store ∧
      (readStatus ((readStatus store id).2) id).1 = (readStatus store id).1) := by
  have hpend0 : ∀ j, j < k → (f (0 + j)).status = Status.pending := by
    intro j hj
    simpa using hpend j hj
  have hterm0 : (f (0 + k)).status ≠ Status.pending := by
    simpa using hterm
  have hfst := pollTaskStatus_fst_range f k fuel 0 hpend0 hterm0 hfuel
  have hfst' : (pollTaskStatus f fuel 0).1 = List.range (k + 1) := by
    rw [hfst]
    simp
  have hsnd := pollTaskStatus_snd_eq_map f fuel 0
  refine ⟨hsnd, ?_, ?_, ?_⟩
  · have : (pollTaskStatus f fuel 0).2 = (List.range (k + 1)).map f := by
      rw [hsnd, hfst']
    exact Prod.ext hfst' this
  · intro m hm
    rw [hfst']
    simp
    omega
  · intro store id
    exact ⟨rfl, rfl⟩

theorem C7_poll_until_terminal_witness :
    pollTaskStatus sampleFetchStream 5 0 =
      (List.range 3, (List.range 3).map sampleFetchStream) :=
  (C7_poll_until_terminal sampleFetchStream 2 5
    (by decide) (by decide) (by decide)).2.1
